import Mathlib

/-!
Shallow embedding of the filtering-and-aggregation pipeline of the Netflix
dashboard (src/netflix_dashboard/app.py), together with proofs checking the
natural-language specification against it.

Modelling conventions:
* A pandas DataFrame of title records is a `List Row`; a raw CSV row (before
  cleaning) is a `RawRow` whose nullable columns are `Option`-valued and whose
  `date_added` holds the result of `pd.to_datetime(..., errors="coerce")`
  (`none` = NaT).
* Every split in the source uses the fixed delimiter `", "`; `splitCountries`
  implements leftmost, non-overlapping splitting on that delimiter exactly as
  Python `str.split(", ")` does.
* `value_counts` models `pandas.Series.value_counts()`: multiplicities of the
  distinct values, keys in first-seen order, then stably sorted by count in
  descending order (ties keep first-seen order).
* The frame produced by the filter block is a `Frame`: `plain` when no country
  is selected, `exploded` when the code added the helper column
  `country_exploded` (one row per country token); `Frame.schema` records the
  column list of the frame, `baseCols` being the modelled columns of the
  loaded dataset.
-/

/-- A calendar date, as produced by a successful `pd.to_datetime` parse. -/
structure SimpleDate where
  year : Int
  month : Nat
  day : Nat
deriving DecidableEq, Repr

/-- A raw CSV row restricted to the columns the pipeline reads.
`date_added` is the parse result (`none` when parsing failed / NaT);
`country`, `listed_in`, `rating` are nullable in the source file. -/
structure RawRow where
  type : String
  date_added : Option SimpleDate
  country : Option String
  listed_in : Option String
  rating : Option String
deriving DecidableEq, Repr

/-- A cleaned title record, as produced by `load_data`. -/
structure Row where
  type : String
  date_added : SimpleDate
  year_added : Int
  country : String
  listed_in : String
  rating : String
deriving DecidableEq, Repr

/-- The per-row cleaning performed by `load_data` on a row whose
`date_added` parsed to `d`: derive `year_added` and default the three
nullable text columns to `"Unknown"`. -/
def cleanRow (r : RawRow) (d : SimpleDate) : Row :=
  { type := r.type
    date_added := d
    year_added := d.year
    country := r.country.getD "Unknown"
    listed_in := r.listed_in.getD "Unknown"
    rating := r.rating.getD "Unknown" }

/-- `load_data` (app.py lines 13-28): drop rows whose `date_added` failed to
parse, derive `year_added` as the year of `date_added`, and fill nulls in
`country`, `listed_in`, `rating` with `"Unknown"`. -/
def load_data (raw : List RawRow) : List Row :=
  raw.filterMap (fun r => r.date_added.map (cleanRow r))

/-- Splitting a character list on the two-character delimiter `,` `space`,
leftmost and non-overlapping, exactly as Python `str.split(", ")`. -/
def splitCS (cur : List Char) : List Char → List (List Char)
  | [] => [cur.reverse]
  | ',' :: ' ' :: rest => cur.reverse :: splitCS [] rest
  | c :: rest => splitCS (c :: cur) rest

/-- `s.split(", ")` for a string column value (used for `country` and
`listed_in` alike; the source always splits on `", "`). -/
def splitCountries (s : String) : List String :=
  (splitCS [] s.data).map (fun cs => String.mk cs)

/-- The distinct values of a list in first-seen order
(the key order of a pandas value-count hashtable). -/
def firstSeen : List String → List String
  | [] => []
  | x :: xs => x :: (firstSeen xs).filter (fun y => !(y == x))

/-- Multiplicity table of a column: each distinct value paired with its
number of occurrences, keys in first-seen order (the state of
`value_counts` before its descending sort). -/
def countTokens (l : List String) : List (String × Nat) :=
  (firstSeen l).map (fun s => (s, l.count s))

/-- Stable descending insertion by count: `x` is placed before the first
entry whose count does not exceed `x`'s, so earlier entries win ties. -/
def insertByCount (x : String × Nat) : List (String × Nat) → List (String × Nat)
  | [] => [x]
  | y :: ys => if y.2 ≤ x.2 then x :: y :: ys else y :: insertByCount x ys

/-- Stable sort by count, descending (ties keep list order). -/
def sortByCountDesc : List (String × Nat) → List (String × Nat)
  | [] => []
  | x :: xs => insertByCount x (sortByCountDesc xs)

/-- `Series.value_counts()`: counts of the distinct values, sorted by count
descending, ties in first-seen order. -/
def value_counts (l : List String) : List (String × Nat) :=
  sortByCountDesc (countTokens l)

/-- `country_counts` (app.py lines 51-55):
`df["country"].str.split(", ").explode().value_counts()`. -/
def country_counts (df : List Row) : List (String × Nat) :=
  value_counts (df.flatMap (fun r => splitCountries r.country))

/-- `top_country_list` (app.py lines 56-58): the 30 most frequent country
tokens, with `"Unknown"` appended when not already among them. -/
def top_country_list (df : List Row) : List String :=
  let top := ((country_counts df).take 30).map Prod.fst
  if top.contains "Unknown" then top else top ++ ["Unknown"]

/-- `sorted(df["type"].dropna().unique())` (app.py lines 35-39). -/
def content_type_options (df : List Row) : List String :=
  ((df.map (fun r => r.type)).dedup).mergeSort (fun a b => decide (a ≤ b))

/-- Minimum of an integer column (`Series.min()`), `none` on an empty frame. -/
def colMin : List Int → Option Int
  | [] => none
  | x :: xs =>
    some (match colMin xs with
      | none => x
      | some m => min x m)

/-- Maximum of an integer column (`Series.max()`), `none` on an empty frame. -/
def colMax : List Int → Option Int
  | [] => none
  | x :: xs =>
    some (match colMax xs with
      | none => x
      | some m => max x m)

/-- `min_year = int(df["year_added"].min())` (app.py line 41). -/
def min_year (df : List Row) : Int :=
  (colMin (df.map (fun r => r.year_added))).getD 0

/-- `max_year = int(df["year_added"].max())` (app.py line 42). -/
def max_year (df : List Row) : Int :=
  (colMax (df.map (fun r => r.year_added))).getD 0

/-- The sidebar selection: `content_type` (multiselect), `year_range`
(slider, inclusive bounds) and `country_selected` (multiselect; empty list
means no country filtering). -/
structure Selection where
  content_types : List String
  year_low : Int
  year_high : Int
  countries : List String
deriving DecidableEq, Repr

/-- Step 1 of the filter (app.py lines 67-70):
`df[df["type"].isin(content_type) & df["year_added"].between(low, high)]`. -/
def step1 (df : List Row) (sel : Selection) : List Row :=
  df.filter (fun r =>
    sel.content_types.contains r.type &&
    (decide (sel.year_low ≤ r.year_added) && decide (r.year_added ≤ sel.year_high)))

/-- The columns of the modelled loaded dataset. -/
def baseCols : List String :=
  ["type", "date_added", "year_added", "country", "listed_in", "rating"]

/-- A pandas frame as the filter block produces it: either the step-1 subset
(no country selected) or the exploded subset carrying the extra helper
column `country_exploded` (the second component of each pair). -/
inductive Frame where
  | plain (rows : List Row)
  | exploded (rows : List (Row × String))
deriving DecidableEq, Repr

/-- The column list of a frame: the exploded frame keeps the helper column
`country_exploded` that the code added before exploding. -/
def Frame.schema : Frame → List String
  | .plain _ => baseCols
  | .exploded _ => baseCols ++ ["country_exploded"]

/-- The title records of a frame (the original columns of each row). -/
def Frame.rowList : Frame → List Row
  | .plain rs => rs
  | .exploded rs => rs.map Prod.fst

/-- The number of rows of a frame (`len(...)` in pandas). -/
def Frame.numRows : Frame → Nat
  | .plain rs => rs.length
  | .exploded rs => rs.length

/-- `filtered_df` (app.py lines 67-76): step 1, then, when a country is
selected, split `country` into `country_exploded`, explode, and keep the
rows whose token is selected. -/
def filtered_df (df : List Row) (sel : Selection) : Frame :=
  let s1 := step1 df sel
  if sel.countries.isEmpty then Frame.plain s1
  else
    let tmp := s1.flatMap (fun r => (splitCountries r.country).map (fun tok => (r, tok)))
    Frame.exploded (tmp.filter (fun p => sel.countries.contains p.2))

/-- The KPI `c1.metric("Total Titles", len(filtered_df))` (app.py line 80). -/
def total_titles (f : Frame) : Nat :=
  f.numRows

/-- The code never raises on any selection: the filter block is a total
computation. Wrapping it in `Except` makes "fails" versus "returns a
result" a statable property. -/
def applyCode (df : List Row) (sel : Selection) : Except String Frame :=
  Except.ok (filtered_df df sel)

/-- The filter applier as the spec describes it (spec section 4.3), for
comparison with `applyCode`: it is required to fail with
`InvalidSelectionError` when `content_types` leaves the type domain or the
year bounds are inverted. -/
def applySpec (df : List Row) (sel : Selection) : Except String Frame :=
  if sel.content_types.all (fun t => (df.map (fun r => r.type)).contains t) then
    if sel.year_low ≤ sel.year_high then
      Except.ok (filtered_df df sel)
    else Except.error "InvalidSelectionError"
  else Except.error "InvalidSelectionError"

/-- `rating_counts` (app.py lines 146-147):
`filtered_df["rating"].value_counts()`. -/
def rating_counts (f : Frame) : List (String × Nat) :=
  value_counts (f.rowList.map (fun r => r.rating))

/-- `top_countries` (app.py lines 112-117): explode `country`, count,
drop the `"Unknown"` row, keep the top 10. -/
def top_countries (f : Frame) : List (String × Nat) :=
  ((value_counts (f.rowList.flatMap (fun r => splitCountries r.country))).filter
    (fun p => !(p.1 == "Unknown"))).take 10

/-- `top_genres` (app.py lines 128-133): explode `listed_in`, count,
drop the `"Unknown"` row, keep the top 12. -/
def top_genres (f : Frame) : List (String × Nat) :=
  ((value_counts (f.rowList.flatMap (fun r => splitCountries r.listed_in))).filter
    (fun p => !(p.1 == "Unknown"))).take 12

/-- Row 1 of the spec's three-row scenario (section 8). -/
def exRow1 : Row :=
  { type := "Movie", date_added := ⟨2018, 1, 1⟩, year_added := 2018
    country := "India, Canada", listed_in := "Drama", rating := "PG" }

/-- Row 2 of the spec's three-row scenario (section 8). -/
def exRow2 : Row :=
  { type := "TV Show", date_added := ⟨2020, 1, 1⟩, year_added := 2020
    country := "Unknown", listed_in := "Comedy, Drama", rating := "TV-MA" }

/-- Row 3 of the spec's three-row scenario (section 8). -/
def exRow3 : Row :=
  { type := "Movie", date_added := ⟨2020, 1, 1⟩, year_added := 2020
    country := "Canada", listed_in := "Drama", rating := "PG" }

/-- The spec's three-row scenario dataset (section 8). -/
def exDf : List Row :=
  [exRow1, exRow2, exRow3]

/-- The scenario selection with `countries = {Canada}` (spec section 8). -/
def selCanada : Selection :=
  { content_types := ["Movie"], year_low := 2018, year_high := 2020
    countries := ["Canada"] }

/-- A selection with inverted year bounds and a content type outside the
scenario dataset's type domain. -/
def badSel : Selection :=
  { content_types := ["Movie", "Bogus"], year_low := 2021, year_high := 2019
    countries := [] }

/-! ### Helper lemmas about the counting and sorting model -/

/-- Sanity: the delimiter split behaves as Python `str.split(", ")`. -/
theorem splitCountries_scenario :
    splitCountries "India, Canada" = ["India", "Canada"]
      ∧ splitCountries "Unknown" = ["Unknown"] := by
  decide

/-- Sanity: the spec's Canada scenario — rows 1 and 3 each keep exactly
their Canada token. -/
theorem filtered_df_scenario :
    filtered_df exDf selCanada
      = Frame.exploded [(exRow1, "Canada"), (exRow3, "Canada")] := by
  decide

theorem mem_firstSeen {s : String} : ∀ {l : List String}, s ∈ firstSeen l ↔ s ∈ l
  | [] => Iff.rfl
  | x :: xs => by
    simp only [firstSeen, List.mem_cons, List.mem_filter, Bool.not_eq_eq_eq_not,
      Bool.not_true, beq_eq_false_iff_ne, ne_eq]
    constructor
    · rintro (rfl | ⟨hmem, _⟩)
      · exact Or.inl rfl
      · exact Or.inr (mem_firstSeen.mp hmem)
    · rintro (rfl | hmem)
      · exact Or.inl rfl
      · by_cases hx : s = x
        · exact Or.inl hx
        · exact Or.inr ⟨mem_firstSeen.mpr hmem, hx⟩

theorem mem_countTokens {s : String} {n : Nat} {l : List String} :
    (s, n) ∈ countTokens l ↔ s ∈ l ∧ n = l.count s := by
  simp only [countTokens, List.mem_map, Prod.mk.injEq]
  constructor
  · rintro ⟨a, ha, rfl, rfl⟩
    exact ⟨mem_firstSeen.mp ha, rfl⟩
  · rintro ⟨hs, rfl⟩
    exact ⟨s, mem_firstSeen.mpr hs, rfl, rfl⟩

theorem insertByCount_perm (x : String × Nat) :
    ∀ (l : List (String × Nat)), (insertByCount x l).Perm (x :: l)
  | [] => List.Perm.refl _
  | y :: ys => by
    simp only [insertByCount]
    by_cases h : y.2 ≤ x.2
    · simp [h]
    · simp only [h, if_false]
      exact ((insertByCount_perm x ys).cons y).trans (List.Perm.swap x y ys)

theorem sortByCountDesc_perm : ∀ (l : List (String × Nat)), (sortByCountDesc l).Perm l
  | [] => List.Perm.refl _
  | x :: xs =>
    (insertByCount_perm x (sortByCountDesc xs)).trans ((sortByCountDesc_perm xs).cons x)

theorem mem_insertByCount {z x : String × Nat} {l : List (String × Nat)} :
    z ∈ insertByCount x l ↔ z = x ∨ z ∈ l := by
  rw [(insertByCount_perm x l).mem_iff, List.mem_cons]

theorem insertByCount_pairwise {x : String × Nat} {l : List (String × Nat)}
    (h : l.Pairwise (fun a b => b.2 ≤ a.2)) :
    (insertByCount x l).Pairwise (fun a b => b.2 ≤ a.2) := by
  induction l with
  | nil => simp [insertByCount]
  | cons y ys ih =>
    simp only [insertByCount]
    rcases List.pairwise_cons.mp h with ⟨hy, hys⟩
    by_cases hle : y.2 ≤ x.2
    · simp only [hle, if_true]
      refine List.pairwise_cons.mpr ⟨?_, h⟩
      intro z hz
      rcases List.mem_cons.mp hz with rfl | hz
      · exact hle
      · exact le_trans (hy z hz) hle
    · simp only [hle, if_false]
      refine List.pairwise_cons.mpr ⟨?_, ih hys⟩
      intro z hz
      rcases mem_insertByCount.mp hz with rfl | hz
      · omega
      · exact hy z hz

theorem sortByCountDesc_pairwise :
    ∀ (l : List (String × Nat)), (sortByCountDesc l).Pairwise (fun a b => b.2 ≤ a.2)
  | [] => List.Pairwise.nil
  | _ :: xs => insertByCount_pairwise (sortByCountDesc_pairwise xs)

theorem filter_insertByCount (n : Nat) (x : String × Nat) (l : List (String × Nat)) :
    (insertByCount x l).filter (fun p => p.2 == n)
      = if x.2 = n then x :: l.filter (fun p => p.2 == n)
        else l.filter (fun p => p.2 == n) := by
  induction l with
  | nil =>
    by_cases hxn : x.2 = n <;> simp [insertByCount, List.filter_cons, hxn]
  | cons y ys ih =>
    simp only [insertByCount]
    by_cases hle : y.2 ≤ x.2
    · rw [if_pos hle]
      by_cases hxn : x.2 = n <;> by_cases hyn : y.2 = n <;>
        simp [List.filter_cons, hxn, hyn]
    · simp only [hle, if_false]
      by_cases hyn : y.2 = n
      · have hxn : x.2 ≠ n := by omega
        simp [List.filter_cons, hyn, hxn, ih]
      · simp [List.filter_cons, hyn, ih]

theorem filter_sortByCountDesc (n : Nat) :
    ∀ (l : List (String × Nat)),
      (sortByCountDesc l).filter (fun p => p.2 == n) = l.filter (fun p => p.2 == n)
  | [] => rfl
  | x :: xs => by
    simp only [sortByCountDesc, filter_insertByCount, filter_sortByCountDesc n xs]
    by_cases hx : x.2 = n
    · simp [List.filter_cons, hx]
    · simp [List.filter_cons, hx]

/-! ### Claims C1, C2, C3: the filter applier -/

/-- C1: with a non-empty `countries` selection, the filter output is exactly
one exploded row per pair of a step-1 row and a matching token of its
`country` field split on the delimiter, all other fields copied from the
source row (so a record with k matching tokens appears k times). -/
theorem c1_country_explosion (df : List Row) (sel : Selection)
    (h : sel.countries ≠ []) :
    filtered_df df sel = Frame.exploded ((step1 df sel).flatMap
      (fun r => ((splitCountries r.country).filter
        (fun tok => sel.countries.contains tok)).map (fun tok => (r, tok)))) := by
  have hne : sel.countries.isEmpty = false := by
    cases hc : sel.countries with
    | nil => exact absurd hc h
    | cons a l => rfl
  simp only [filtered_df, hne, Bool.false_eq_true, if_false, List.filter_flatMap,
    List.filter_map]
  rfl

/-- Witness for C1 at the spec's scenario: selecting Canada keeps rows 1
and 3, one exploded Canada row each. -/
theorem c1_country_explosion_witness :
    filtered_df exDf selCanada = Frame.exploded ((step1 exDf selCanada).flatMap
      (fun r => ((splitCountries r.country).filter
        (fun tok => selCanada.countries.contains tok)).map (fun tok => (r, tok)))) :=
  c1_country_explosion exDf selCanada (by decide)

/-- C2 counterexample: on a selection with a content type outside the type
domain and inverted year bounds, the code returns a result (the empty
frame) instead of failing with InvalidSelectionError. -/
theorem c2_counterexample :
    ("Bogus" ∈ badSel.content_types ∧ "Bogus" ∉ exDf.map (fun r => r.type)
        ∧ badSel.year_high < badSel.year_low)
      ∧ applyCode exDf badSel = Except.ok (Frame.plain [])
      ∧ applySpec exDf badSel = Except.error "InvalidSelectionError" :=
  ⟨by decide, by rfl, by rfl⟩

/-- C2 amended: the filter applier performs no validation and always
returns a result; inverted year bounds give a zero-row result, and a
content type outside the dataset's type domain has no effect on the
output. -/
theorem c2_no_validation (df : List Row) (sel : Selection) :
    applyCode df sel = Except.ok (filtered_df df sel)
      ∧ (sel.year_high < sel.year_low → (filtered_df df sel).numRows = 0)
      ∧ (∀ t, t ∉ df.map (fun r => r.type) →
          filtered_df df { sel with content_types := sel.content_types.erase t }
            = filtered_df df sel) := by
  refine ⟨rfl, ?_, ?_⟩
  · intro hinv
    have hs : step1 df sel = [] := by
      apply List.filter_eq_nil_iff.mpr
      intro r _
      simp only [Bool.and_eq_true, decide_eq_true_eq, not_and]
      intro _ h1
      omega
    cases hE : sel.countries.isEmpty <;>
      simp [filtered_df, hs, hE, Frame.numRows]
  · intro t ht
    have hstep : step1 df { sel with content_types := sel.content_types.erase t }
        = step1 df sel := by
      apply List.filter_congr
      intro r hr
      have hrt : r.type ≠ t := by
        intro he
        exact ht (he ▸ List.mem_map_of_mem (fun r => r.type) hr)
      have hcont : (sel.content_types.erase t).contains r.type
          = sel.content_types.contains r.type := by
        by_cases hmem : r.type ∈ sel.content_types
        · have h1 : r.type ∈ sel.content_types.erase t :=
            (List.mem_erase_of_ne hrt).mpr hmem
          simp [List.contains, List.elem_iff, hmem, h1]
        · have h1 : r.type ∉ sel.content_types.erase t := by
            intro hc
            exact hmem ((List.mem_erase_of_ne hrt).mp hc)
          simp [List.contains, List.elem_iff, hmem, h1]
        
      simp only [hcont]
    simp only [filtered_df, hstep]

/-- Witness for C2 amended: inverted bounds on the scenario dataset give a
zero-row result, and erasing the bogus type does not change the output. -/
theorem c2_no_validation_witness :
    (filtered_df exDf badSel).numRows = 0
      ∧ filtered_df exDf { badSel with content_types := badSel.content_types.erase "Bogus" }
          = filtered_df exDf badSel :=
  ⟨(c2_no_validation exDf badSel).2.1 (by decide),
    (c2_no_validation exDf badSel).2.2 "Bogus" (by decide)⟩

/-- C3 counterexample: with a non-empty `countries` selection the output
frame keeps the helper column `country_exploded`, so its schema differs
from the input schema. -/
theorem c3_counterexample :
    selCanada.countries ≠ [] ∧ (filtered_df exDf selCanada).schema ≠ baseCols := by
  decide

/-- C3 amended: the output schema equals the input schema exactly when no
country is selected; with a non-empty `countries` selection the output has
the extra column `country_exploded` appended. -/
theorem c3_schema (df : List Row) (sel : Selection) :
    (sel.countries = [] → (filtered_df df sel).schema = baseCols)
      ∧ (sel.countries ≠ [] → (filtered_df df sel).schema
          = baseCols ++ ["country_exploded"]) := by
  constructor
  · intro h
    simp [filtered_df, h, Frame.schema]
  · intro h
    have hne : sel.countries.isEmpty = false := by
      cases hc : sel.countries with
      | nil => exact absurd hc h
      | cons a l => rfl
    simp [filtered_df, hne, Frame.schema]

/-- Witness for C3 amended at the scenario: the Canada selection output
carries the extra column. -/
theorem c3_schema_witness :
    (filtered_df exDf selCanada).schema = baseCols ++ ["country_exploded"] :=
  (c3_schema exDf selCanada).2 (by decide)

/-! ### Claims C4, C6, C9, C10: loader, step-1 filter, determinism, identity -/

/-- Provenance of loader output: every loaded row is the cleaning of a raw
row whose date parsed, and every raw row whose date parsed contributes its
cleaning. -/
theorem mem_load_data {raw : List RawRow} {row : Row} :
    row ∈ load_data raw ↔ ∃ r ∈ raw, ∃ d, r.date_added = some d ∧ cleanRow r d = row := by
  simp only [load_data, List.mem_filterMap, Option.map_eq_some']

/-- The loader keeps exactly the rows whose date parsed. -/
theorem load_data_length (raw : List RawRow) :
    (load_data raw).length = (raw.filter (fun r => r.date_added.isSome)).length := by
  induction raw with
  | nil => rfl
  | cons r raw ih =>
    simp only [load_data, List.filterMap_cons, List.filter_cons] at ih ⊢
    cases hd : r.date_added with
    | none => simpa [hd] using ih
    | some d => simpa [hd] using ih

/-- C4: every loaded record has `year_added` equal to the year of its
(non-null) `date_added`; rows with an unparseable date are excluded
entirely, not defaulted; and a null `country`, `listed_in` or `rating` is
replaced by the literal `"Unknown"` in the cleaned record. Non-nullness of
the five cleaned columns is enforced by the `Row` type itself. -/
theorem c4_load_invariants (raw : List RawRow) :
    (∀ row ∈ load_data raw, row.year_added = row.date_added.year)
      ∧ (load_data raw).length = (raw.filter (fun r => r.date_added.isSome)).length
      ∧ (∀ r ∈ raw, ∀ d, r.date_added = some d → cleanRow r d ∈ load_data raw)
      ∧ (∀ row ∈ load_data raw, ∃ r ∈ raw, ∃ d, r.date_added = some d ∧ row = cleanRow r d)
      ∧ (∀ r d, r.country = none → (cleanRow r d).country = "Unknown")
      ∧ (∀ r d, r.listed_in = none → (cleanRow r d).listed_in = "Unknown")
      ∧ (∀ r d, r.rating = none → (cleanRow r d).rating = "Unknown") := by
  refine ⟨?_, load_data_length raw, ?_, ?_, ?_, ?_, ?_⟩
  · intro row hrow
    rcases mem_load_data.mp hrow with ⟨r, _, d, _, hclean⟩
    rw [← hclean]
    rfl
  · intro r hr d hd
    exact mem_load_data.mpr ⟨r, hr, d, hd, rfl⟩
  · intro row hrow
    rcases mem_load_data.mp hrow with ⟨r, hr, d, hd, hclean⟩
    exact ⟨r, hr, d, hd, hclean.symm⟩
  · intro r d h
    simp [cleanRow, h]
  · intro r d h
    simp [cleanRow, h]
  · intro r d h
    simp [cleanRow, h]

/-- A raw row whose date parsed but whose `country` is null. -/
def exRaw1 : RawRow :=
  { type := "Movie", date_added := some ⟨2018, 1, 1⟩, country := none
    listed_in := some "Drama", rating := some "PG" }

/-- A raw row whose date failed to parse. -/
def exRaw2 : RawRow :=
  { type := "TV Show", date_added := none, country := some "Canada"
    listed_in := none, rating := none }

/-- Witness for C4: on a concrete raw input the parsed row is retained with
its `country` defaulted to `"Unknown"`, and the unparseable row is dropped. -/
theorem c4_load_invariants_witness :
    cleanRow exRaw1 ⟨2018, 1, 1⟩ ∈ load_data [exRaw1, exRaw2]
      ∧ (cleanRow exRaw1 ⟨2018, 1, 1⟩).country = "Unknown"
      ∧ (load_data [exRaw1, exRaw2]).length
          = ([exRaw1, exRaw2].filter (fun r => r.date_added.isSome)).length :=
  ⟨(c4_load_invariants [exRaw1, exRaw2]).2.2.1 exRaw1 (by decide) ⟨2018, 1, 1⟩ rfl,
    (c4_load_invariants [exRaw1, exRaw2]).2.2.2.2.1 exRaw1 ⟨2018, 1, 1⟩ rfl,
    (c4_load_invariants [exRaw1, exRaw2]).2.1⟩

/-- C6: a row survives the first filtering step exactly when its type is
selected and its `year_added` lies within the inclusive year range; with an
empty `content_types` the filtered set is empty and the Total Titles KPI
is 0. -/
theorem c6_step1_membership (df : List Row) (sel : Selection) :
    (∀ r, r ∈ step1 df sel ↔ r ∈ df ∧ r.type ∈ sel.content_types
        ∧ sel.year_low ≤ r.year_added ∧ r.year_added ≤ sel.year_high)
      ∧ (sel.content_types = [] → total_titles (filtered_df df sel) = 0) := by
  constructor
  · intro r
    simp [step1, List.mem_filter, List.contains, List.elem_iff, and_assoc]
  · intro hct
    have hs : step1 df sel = [] := by
      apply List.filter_eq_nil_iff.mpr
      intro r _
      simp [hct]
    cases hE : sel.countries.isEmpty <;>
      simp [total_titles, filtered_df, hs, hE, Frame.numRows]

/-- The scenario selection with all content types deselected. -/
def emptySel : Selection :=
  { content_types := [], year_low := 2018, year_high := 2020, countries := [] }

/-- Witness for C6: deselecting every content type on the scenario dataset
gives KPI total 0, and row 1 passes the step-1 test of the Canada
selection. -/
theorem c6_step1_membership_witness :
    total_titles (filtered_df exDf emptySel) = 0
      ∧ (exRow1 ∈ step1 exDf selCanada ↔ exRow1 ∈ exDf
          ∧ exRow1.type ∈ selCanada.content_types
          ∧ selCanada.year_low ≤ exRow1.year_added
          ∧ exRow1.year_added ≤ selCanada.year_high) :=
  ⟨(c6_step1_membership exDf emptySel).2 rfl,
    (c6_step1_membership exDf selCanada).1 exRow1⟩

/-- C9: the filter applier is a deterministic function of the dataset and
the selection — equal arguments give identical output. -/
theorem c9_deterministic (df1 df2 : List Row) (s1 s2 : Selection)
    (hd : df1 = df2) (hsel : s1 = s2) :
    filtered_df df1 s1 = filtered_df df2 s2 := by
  rw [hd, hsel]

/-- Witness for C9 at the scenario inputs. -/
theorem c9_deterministic_witness :
    filtered_df exDf selCanada = filtered_df exDf selCanada :=
  c9_deterministic exDf exDf selCanada selCanada rfl rfl

/-! ### Claim C10: the broadest valid selection is an identity -/

/-- The column minimum bounds every element from below. -/
theorem colMin_le : ∀ {l : List Int} {m : Int}, colMin l = some m → ∀ x ∈ l, m ≤ x
  | [], _, h => by simp [colMin] at h
  | x :: xs, m, h => by
    intro y hy
    cases hxs : colMin xs with
    | none =>
      have hnil : xs = [] := by
        cases xs with
        | nil => rfl
        | cons a l => simp [colMin] at hxs
      subst hnil
      simp only [colMin, hxs, Option.some.injEq] at h
      rcases List.mem_singleton.mp hy with rfl
      omega
    | some m2 =>
      simp only [colMin, hxs, Option.some.injEq] at h
      rcases List.mem_cons.mp hy with rfl | hy2
      · omega
      · have h2 := colMin_le hxs y hy2
        omega

/-- The column maximum bounds every element from above. -/
theorem le_colMax : ∀ {l : List Int} {m : Int}, colMax l = some m → ∀ x ∈ l, x ≤ m
  | [], _, h => by simp [colMax] at h
  | x :: xs, m, h => by
    intro y hy
    cases hxs : colMax xs with
    | none =>
      have hnil : xs = [] := by
        cases xs with
        | nil => rfl
        | cons a l => simp [colMax] at hxs
      subst hnil
      simp only [colMax, hxs, Option.some.injEq] at h
      rcases List.mem_singleton.mp hy with rfl
      omega
    | some m2 =>
      simp only [colMax, hxs, Option.some.injEq] at h
      rcases List.mem_cons.mp hy with rfl | hy2
      · omega
      · have h2 := le_colMax hxs y hy2
        omega

/-- On a non-empty dataset, `min_year` bounds every `year_added` below. -/
theorem min_year_le (df : List Row) (hne : df ≠ []) :
    ∀ r ∈ df, min_year df ≤ r.year_added := by
  intro r hr
  obtain ⟨a, l, rfl⟩ : ∃ a l, df = a :: l := by
    cases df with
    | nil => exact absurd rfl hne
    | cons a l => exact ⟨a, l, rfl⟩
  have hm : ∃ m, colMin ((a :: l).map (fun r => r.year_added)) = some m := ⟨_, rfl⟩
  rcases hm with ⟨m, hm⟩
  have h1 := colMin_le hm r.year_added
    (List.mem_map_of_mem (fun r => r.year_added) hr)
  simp only [List.map_cons] at hm
  simpa [min_year, hm] using h1

/-- On a non-empty dataset, `max_year` bounds every `year_added` above. -/
theorem le_max_year (df : List Row) (hne : df ≠ []) :
    ∀ r ∈ df, r.year_added ≤ max_year df := by
  intro r hr
  obtain ⟨a, l, rfl⟩ : ∃ a l, df = a :: l := by
    cases df with
    | nil => exact absurd rfl hne
    | cons a l => exact ⟨a, l, rfl⟩
  have hm : ∃ m, colMax ((a :: l).map (fun r => r.year_added)) = some m := ⟨_, rfl⟩
  rcases hm with ⟨m, hm⟩
  have h1 := le_colMax hm r.year_added
    (List.mem_map_of_mem (fun r => r.year_added) hr)
  simp only [List.map_cons] at hm
  simpa [max_year, hm] using h1

/-- C10: the broadest selection derived from a non-empty dataset — all
observed content types, the observed year bounds, no countries — passes
every row through unchanged, in order. -/
theorem c10_broadest_identity (df : List Row) (sel : Selection) (hne : df ≠ [])
    (hct : sel.content_types = content_type_options df)
    (hlo : sel.year_low = min_year df) (hhi : sel.year_high = max_year df)
    (hc : sel.countries = []) :
    filtered_df df sel = Frame.plain df := by
  have hstep : step1 df sel = df := by
    apply List.filter_eq_self.mpr
    intro r hr
    have htype : r.type ∈ sel.content_types := by
      rw [hct, content_type_options]
      exact List.mem_mergeSort.mpr
        (List.mem_dedup.mpr (List.mem_map_of_mem (fun r => r.type) hr))
    have h1 : sel.year_low ≤ r.year_added := hlo ▸ min_year_le df hne r hr
    have h2 : r.year_added ≤ max_year df := le_max_year df hne r hr
    simp [List.contains, List.elem_iff, htype, h1, hhi ▸ h2]
  simp [filtered_df, hc, hstep]

/-- The broadest selection on the scenario dataset. -/
def broadSel : Selection :=
  { content_types := content_type_options exDf, year_low := min_year exDf
    year_high := max_year exDf, countries := [] }

/-- Witness for C10: the broadest selection on the scenario dataset returns
it unchanged. -/
theorem c10_broadest_identity_witness :
    filtered_df exDf broadSel = Frame.plain exDf :=
  c10_broadest_identity exDf broadSel (by decide) rfl rfl rfl rfl

/-! ### Claims C5, C7, C8: value-count aggregates -/

/-- C5: the top-countries option list is built from the token counts of the
exploded `country` column — the sorted table is a permutation of the
first-seen count table, is ordered by descending count, ties keep
first-seen order — and `"Unknown"` is appended at the end exactly when it
is not already among the 30 tokens kept. -/
theorem c5_top_country_list (df : List Row) :
    (country_counts df).Perm
        (countTokens (df.flatMap (fun r => splitCountries r.country)))
      ∧ (country_counts df).Pairwise (fun a b => b.2 ≤ a.2)
      ∧ (∀ n, (country_counts df).filter (fun p => p.2 == n)
          = (countTokens (df.flatMap (fun r => splitCountries r.country))).filter
              (fun p => p.2 == n))
      ∧ ("Unknown" ∈ ((country_counts df).take 30).map Prod.fst →
          top_country_list df = ((country_counts df).take 30).map Prod.fst)
      ∧ ("Unknown" ∉ ((country_counts df).take 30).map Prod.fst →
          top_country_list df
            = ((country_counts df).take 30).map Prod.fst ++ ["Unknown"]) := by
  refine ⟨sortByCountDesc_perm _, sortByCountDesc_pairwise _,
    fun n => filter_sortByCountDesc n _, ?_, ?_⟩
  · intro h
    have hc : (((country_counts df).take 30).map Prod.fst).contains "Unknown" = true :=
      List.elem_iff.mpr h
    simp only [top_country_list, hc, if_true]
  · intro h
    have hc : (((country_counts df).take 30).map Prod.fst).contains "Unknown" = false := by
      rw [← Bool.not_eq_true]
      intro hc
      exact h (List.elem_iff.mp hc)
    simp only [top_country_list, hc, Bool.false_eq_true, if_false]

/-- Witness for C5 on the scenario dataset: `"Unknown"` is among the kept
tokens, so nothing is appended. -/
theorem c5_top_country_list_witness :
    "Unknown" ∈ ((country_counts exDf).take 30).map Prod.fst
      ∧ top_country_list exDf = ((country_counts exDf).take 30).map Prod.fst :=
  ⟨by decide, (c5_top_country_list exDf).2.2.2.1 (by decide)⟩

/-- The scenario dataset reordered so that the first-seen rating is not the
most frequent one. -/
def exFrameC7 : Frame :=
  Frame.plain [exRow2, exRow1, exRow3]

/-- C7 counterexample: the rating distribution is not in first-seen order —
`value_counts` puts the most frequent rating first even when another
rating occurred first. -/
theorem c7_counterexample :
    rating_counts exFrameC7
      ≠ countTokens (exFrameC7.rowList.map (fun r => r.rating)) := by
  decide

/-- C7 amended: the rating distribution maps each distinct rating to its
row count, but its entries are ordered by descending count (not first-seen
order); only ties keep first-seen order. -/
theorem c7_rating_distribution (f : Frame) :
    (∀ s n, (s, n) ∈ rating_counts f ↔ s ∈ f.rowList.map (fun r => r.rating)
        ∧ n = (f.rowList.map (fun r => r.rating)).count s)
      ∧ (rating_counts f).Pairwise (fun a b => b.2 ≤ a.2)
      ∧ (∀ n, (rating_counts f).filter (fun p => p.2 == n)
          = (countTokens (f.rowList.map (fun r => r.rating))).filter
              (fun p => p.2 == n)) := by
  refine ⟨?_, sortByCountDesc_pairwise _, fun n => filter_sortByCountDesc n _⟩
  intro s n
  rw [rating_counts, value_counts, (sortByCountDesc_perm _).mem_iff, mem_countTokens]

/-- Witness for C7 amended at a concrete frame: the most frequent rating
heads the table with its correct count. -/
theorem c7_rating_distribution_witness :
    ("PG", 2) ∈ rating_counts exFrameC7
      ↔ "PG" ∈ exFrameC7.rowList.map (fun r => r.rating)
        ∧ 2 = (exFrameC7.rowList.map (fun r => r.rating)).count "PG" :=
  (c7_rating_distribution exFrameC7).1 "PG" 2

/-- C8: the top-countries aggregate has at most 10 rows and the top-genres
aggregate at most 12, both are ordered by descending token count, the
token `"Unknown"` never appears, and each listed count is the number of
occurrences of the token in the exploded column. -/
theorem c8_top_aggregates (f : Frame) :
    (top_countries f).length ≤ 10 ∧ (top_genres f).length ≤ 12
      ∧ (top_countries f).Pairwise (fun a b => b.2 ≤ a.2)
      ∧ (top_genres f).Pairwise (fun a b => b.2 ≤ a.2)
      ∧ (∀ p ∈ top_countries f, p.1 ≠ "Unknown"
          ∧ p.2 = (f.rowList.flatMap (fun r => splitCountries r.country)).count p.1)
      ∧ (∀ p ∈ top_genres f, p.1 ≠ "Unknown"
          ∧ p.2 = (f.rowList.flatMap (fun r => splitCountries r.listed_in)).count p.1) := by
  refine ⟨List.length_take_le _ _, List.length_take_le _ _, ?_, ?_, ?_, ?_⟩
  · exact List.Pairwise.sublist (List.take_sublist _ _)
      (List.Pairwise.filter _ (sortByCountDesc_pairwise _))
  · exact List.Pairwise.sublist (List.take_sublist _ _)
      (List.Pairwise.filter _ (sortByCountDesc_pairwise _))
  · intro p hp
    have hmem := List.Sublist.mem hp (List.take_sublist _ _)
    rcases List.mem_filter.mp hmem with ⟨hv, hne⟩
    have hct : (p.1, p.2) ∈ countTokens
        (f.rowList.flatMap (fun r => splitCountries r.country)) :=
      (sortByCountDesc_perm _).mem_iff.mp hv
    refine ⟨?_, (mem_countTokens.mp hct).2⟩
    simpa using hne
  · intro p hp
    have hmem := List.Sublist.mem hp (List.take_sublist _ _)
    rcases List.mem_filter.mp hmem with ⟨hv, hne⟩
    have hct : (p.1, p.2) ∈ countTokens
        (f.rowList.flatMap (fun r => splitCountries r.listed_in)) :=
      (sortByCountDesc_perm _).mem_iff.mp hv
    refine ⟨?_, (mem_countTokens.mp hct).2⟩
    simpa using hne

/-- Witness for C8 at the scenario frame: Canada appears with count 2 and
is not `"Unknown"`. -/
theorem c8_top_aggregates_witness :
    ("Canada", 2) ∈ top_countries (Frame.plain exDf)
      ∧ ("Canada", 2).1 ≠ "Unknown"
      ∧ ("Canada", 2).2 = ((Frame.plain exDf).rowList.flatMap
          (fun r => splitCountries r.country)).count ("Canada", 2).1 := by
  refine ⟨by decide, ?_⟩
  have h := (c8_top_aggregates (Frame.plain exDf)).2.2.2.2.1 ("Canada", 2) (by decide)
  exact ⟨h.1, h.2⟩
